import Mathlib

/-!
Verification of the meshview ingestion core: a shallow embedding of the
cipher/decoder (meshview/mqtt_reader.py, meshview/decode_payload.py), the
ingestion processor (meshview/mqtt_store.py) and the topology builder
(meshview/web.py, graph_network) together with theorems settling the frozen
claims about them.

Machine integers are modelled as Nat with explicit reduction modulo powers of
two where the source relies on fixed-width behaviour; byte strings are lists
of Nat below 256; fallible steps return Option or Except.
-/

namespace Meshview

/-- A byte string, as produced and consumed by the Python code. -/
abbrev Bytes := List Nat

/-! ## Byte-order helpers

Models of int.to_bytes / int.from_bytes as used by mqtt_reader.decrypt and
the CTR counter arithmetic of the cryptography library. -/

/-- Little-endian encoding on a fixed width, modelling n.to_bytes(k, "little")
for in-range n. -/
def toBytesLE : Nat → Nat → Bytes
  | 0, _ => []
  | k + 1, n => n % 256 :: toBytesLE k (n / 256)

/-- Big-endian encoding on a fixed width, modelling the counter-block
serialisation inside AES-CTR. -/
def toBytesBE : Nat → Nat → Bytes
  | 0, _ => []
  | k + 1, n => toBytesBE k (n / 256) ++ [n % 256]

/-- Big-endian value of a byte string, modelling the CTR initial-counter
interpretation of the 16-byte nonce. -/
def fromBytesBE (bs : Bytes) : Nat :=
  bs.foldl (fun a b => a * 256 + b) 0

/-! ## AES-128

A complete embedding of the AES-128 block cipher (FIPS 197) as used by the
cryptography library that mqtt_reader.decrypt calls: S-box, key expansion and
the ten-round encryption of one 16-byte block. -/

/-- The AES S-box lookup table (FIPS 197, figure 7), in decimal. -/
def sboxTable : List Nat := [
  99, 124, 119, 123, 242, 107, 111, 197, 48, 1, 103, 43, 254, 215, 171, 118,
  202, 130, 201, 125, 250, 89, 71, 240, 173, 212, 162, 175, 156, 164, 114, 192,
  183, 253, 147, 38, 54, 63, 247, 204, 52, 165, 229, 241, 113, 216, 49, 21,
  4, 199, 35, 195, 24, 150, 5, 154, 7, 18, 128, 226, 235, 39, 178, 117,
  9, 131, 44, 26, 27, 110, 90, 160, 82, 59, 214, 179, 41, 227, 47, 132,
  83, 209, 0, 237, 32, 252, 177, 91, 106, 203, 190, 57, 74, 76, 88, 207,
  208, 239, 170, 251, 67, 77, 51, 133, 69, 249, 2, 127, 80, 60, 159, 168,
  81, 163, 64, 143, 146, 157, 56, 245, 188, 182, 218, 33, 16, 255, 243, 210,
  205, 12, 19, 236, 95, 151, 68, 23, 196, 167, 126, 61, 100, 93, 25, 115,
  96, 129, 79, 220, 34, 42, 144, 136, 70, 238, 184, 20, 222, 94, 11, 219,
  224, 50, 58, 10, 73, 6, 36, 92, 194, 211, 172, 98, 145, 149, 228, 121,
  231, 200, 55, 109, 141, 213, 78, 169, 108, 86, 244, 234, 101, 122, 174, 8,
  186, 120, 37, 46, 28, 166, 180, 198, 232, 221, 116, 31, 75, 189, 139, 138,
  112, 62, 181, 102, 72, 3, 246, 14, 97, 53, 87, 185, 134, 193, 29, 158,
  225, 248, 152, 17, 105, 217, 142, 148, 155, 30, 135, 233, 206, 85, 40, 223,
  140, 161, 137, 13, 191, 230, 66, 104, 65, 153, 45, 15, 176, 84, 187, 22]

/-- S-box substitution of one byte. -/
def sbox (b : Nat) : Nat := sboxTable.getD b 0

/-- Multiplication by x in GF(256) on a byte. -/
def xtime (b : Nat) : Nat :=
  if b < 128 then 2 * b else (2 * b) ^^^ 0x11B

/-- Multiplication by 2 in GF(256). -/
def gmul2 (b : Nat) : Nat := xtime b

/-- Multiplication by 3 in GF(256). -/
def gmul3 (b : Nat) : Nat := xtime b ^^^ b

/-- SubBytes on the 16-byte state. -/
def subBytes (s : List Nat) : List Nat := s.map sbox

/-- Source index of ShiftRows at flat position i, where flat position
r + 4 * c holds state row r, column c. -/
def shiftRowsIdx (i : Nat) : Nat :=
  let r := i % 4
  let c := i / 4
  r + 4 * ((c + r) % 4)

/-- ShiftRows on the 16-byte state. -/
def shiftRows (s : List Nat) : List Nat :=
  List.ofFn (n := 16) fun i => s.getD (shiftRowsIdx i.val) 0

/-- One output byte of MixColumns: row r of the fixed matrix applied to a
column (a0, a1, a2, a3). -/
def mixByte (r a0 a1 a2 a3 : Nat) : Nat :=
  match r with
  | 0 => gmul2 a0 ^^^ gmul3 a1 ^^^ a2 ^^^ a3
  | 1 => a0 ^^^ gmul2 a1 ^^^ gmul3 a2 ^^^ a3
  | 2 => a0 ^^^ a1 ^^^ gmul2 a2 ^^^ gmul3 a3
  | _ => gmul3 a0 ^^^ a1 ^^^ a2 ^^^ gmul2 a3

/-- MixColumns on the 16-byte state. -/
def mixColumns (s : List Nat) : List Nat :=
  List.ofFn (n := 16) fun i =>
    let c := i.val / 4
    mixByte (i.val % 4) (s.getD (4 * c) 0) (s.getD (4 * c + 1) 0)
      (s.getD (4 * c + 2) 0) (s.getD (4 * c + 3) 0)

/-- AddRoundKey on the 16-byte state. -/
def addRoundKey (s rk : List Nat) : List Nat :=
  List.ofFn (n := 16) fun i => s.getD i.val 0 ^^^ rk.getD i.val 0

/-- Rotate a 4-byte key-schedule word left by one byte. -/
def rotWord (w : List Nat) : List Nat := w.drop 1 ++ w.take 1

/-- S-box substitution on a 4-byte key-schedule word. -/
def subWord (w : List Nat) : List Nat := w.map sbox

/-- Byte-wise xor of two 4-byte words. -/
def xorWord (a b : List Nat) : List Nat := List.zipWith (· ^^^ ·) a b

/-- Round constants of the AES key schedule, indexed from 1. -/
def rconAt (j : Nat) : Nat := [0, 1, 2, 4, 8, 16, 32, 64, 128, 27, 54].getD j 0

/-- Key-expansion worker: produces the remaining words, accumulating the
schedule in reverse (head of acc is the most recent word). -/
def expandGo : Nat → Nat → List (List Nat) → List (List Nat)
  | 0, _, acc => acc.reverse
  | n + 1, i, acc =>
    let wPrev := acc.headD [0, 0, 0, 0]
    let wBack := acc.getD 3 [0, 0, 0, 0]
    let temp :=
      if i % 4 == 0 then
        xorWord (subWord (rotWord wPrev)) [rconAt (i / 4), 0, 0, 0]
      else wPrev
    expandGo n (i + 1) (xorWord wBack temp :: acc)

/-- The 44 words of the AES-128 key schedule. -/
def keyWords (key : List Nat) : List (List Nat) :=
  let w0 := key.take 4
  let w1 := (key.drop 4).take 4
  let w2 := (key.drop 8).take 4
  let w3 := (key.drop 12).take 4
  expandGo 40 4 [w3, w2, w1, w0]

/-- The 16-byte round key of round r. -/
def roundKey (ws : List (List Nat)) (r : Nat) : List Nat :=
  ((ws.drop (4 * r)).take 4).flatten

/-- AES-128 encryption of one 16-byte block. -/
def aesEncryptBlock (key block : List Nat) : List Nat :=
  let ws := keyWords key
  let s0 := addRoundKey block (roundKey ws 0)
  let s9 := (List.range 9).foldl
    (fun s r => addRoundKey (mixColumns (shiftRows (subBytes s))) (roundKey ws (r + 1))) s0
  addRoundKey (shiftRows (subBytes s9)) (roundKey ws 10)

/-! ## AES-CTR and the mesh decrypt

Embedding of mqtt_reader.py. The fixed network key is the base64 decode of
the KEY constant at mqtt_reader.py line 11. -/

/-- The fixed pre-shared 16-byte network key of mqtt_reader.KEY. -/
def KEY : Bytes :=
  [212, 241, 187, 58, 32, 41, 7, 89, 240, 188, 255, 171, 207, 78, 105, 1]

/-- Counter block i of CTR mode: the 16-byte nonce read as a big-endian
128-bit integer, plus i, reduced mod 2 ^ 128, re-serialised big-endian.
This is the cryptography library counter semantics used by decrypt. -/
def counterBlock (nonce : Bytes) (i : Nat) : Bytes :=
  toBytesBE 16 ((fromBytesBE nonce + i) % 2 ^ 128)

/-- The CTR keystream from block index i, n blocks long. -/
def ksFrom (key nonce : Bytes) (i : Nat) : Nat → Bytes
  | 0 => []
  | n + 1 => aesEncryptBlock key (counterBlock nonce i) ++ ksFrom key nonce (i + 1) n

/-- One pass of AES-128-CTR over a byte string: xor with the keystream.
Encryption and decryption are this same operation. -/
def ctrCrypt (key nonce data : Bytes) : Bytes :=
  List.zipWith (· ^^^ ·) data (ksFrom key nonce 0 ((data.length + 15) / 16))

/-- The per-packet 16-byte nonce of mqtt_reader.decrypt: 8 bytes
little-endian message id followed by 8 bytes little-endian origin address. -/
def nonceOf (packetId fromNode : Nat) : Bytes :=
  toBytesLE 8 packetId ++ toBytesLE 8 fromNode

/-- The raw plaintext recovered inside mqtt_reader.decrypt (the raw_proto
value): AES-128-CTR applied to the encrypted section of the packet under the
fixed key and per-packet nonce. -/
def decryptRaw (packetId fromNode : Nat) (encrypted : Bytes) : Bytes :=
  ctrCrypt KEY (nonceOf packetId fromNode) encrypted

/-! ## Protobuf wire format and UTF-8

Modelled from the spec: the binary-record decoders of decode_payload.py are
the external protobuf FromString functions and str.decode("utf-8"); the repo
does not contain them. Following the spec, a decode failure is a truncated or
corrupt binary (DecodeError) or invalid UTF-8 (UnicodeDecodeError). We model
parse success by a wire-level well-formedness check of the protobuf framing
(tag varints, field payload sizes) and a full UTF-8 validity check; the field
extraction of a successfully parsed message is abstracted. -/

/-- Read one base-128 varint from the front of a byte string; fails on a
truncated continuation. -/
def readVarint : Bytes → Option (Nat × Bytes)
  | [] => none
  | b :: rest =>
    if b < 128 then some (b, rest)
    else
      match readVarint rest with
      | some (v, r) => some (b % 128 + 128 * v, r)
      | none => none

/-- Fuelled worker for the wire-format check; the fuel is an upper bound on
the number of fields (each consumes at least one byte). -/
def wireOkGo : Nat → Bytes → Bool
  | _, [] => true
  | 0, _ :: _ => false
  | fuel + 1, bs =>
    match readVarint bs with
    | none => false
    | some (key, rest) =>
      let wt := key % 8
      if key / 8 == 0 then false
      else if wt == 0 then
        match readVarint rest with
        | none => false
        | some (_, r2) => wireOkGo fuel r2
      else if wt == 1 then
        if rest.length < 8 then false else wireOkGo fuel (rest.drop 8)
      else if wt == 2 then
        match readVarint rest with
        | none => false
        | some (len, r2) => if r2.length < len then false else wireOkGo fuel (r2.drop len)
      else if wt == 5 then
        if rest.length < 4 then false else wireOkGo fuel (rest.drop 4)
      else false

/-- Wire-level well-formedness of a protobuf byte string: models whether the
external FromString parse succeeds rather than raising DecodeError. -/
def protoWireOk (bs : Bytes) : Bool := wireOkGo bs.length bs

/-- A UTF-8 continuation byte. -/
def isCont (c : Nat) : Bool := decide (0x80 ≤ c ∧ c ≤ 0xBF)

/-- Fuelled UTF-8 validity worker (strict: rejects overlong forms and
surrogates, as the Python utf-8 codec does). -/
def utf8Go : Nat → Bytes → Bool
  | _, [] => true
  | 0, _ :: _ => false
  | fuel + 1, b :: rest =>
    if b < 0x80 then utf8Go fuel rest
    else if b < 0xC2 then false
    else if b < 0xE0 then
      match rest with
      | c1 :: r => isCont c1 && utf8Go fuel r
      | [] => false
    else if b < 0xF0 then
      match rest with
      | c1 :: c2 :: r =>
        (if b == 0xE0 then decide (0xA0 ≤ c1 ∧ c1 ≤ 0xBF)
         else if b == 0xED then decide (0x80 ≤ c1 ∧ c1 ≤ 0x9F)
         else isCont c1) && isCont c2 && utf8Go fuel r
      | _ => false
    else if b < 0xF5 then
      match rest with
      | c1 :: c2 :: c3 :: r =>
        (if b == 0xF0 then decide (0x90 ≤ c1 ∧ c1 ≤ 0xBF)
         else if b == 0xF4 then decide (0x80 ≤ c1 ∧ c1 ≤ 0x8F)
         else isCont c1) && isCont c2 && isCont c3 && utf8Go fuel r
      | _ => false
    else false

/-- UTF-8 validity of a byte string: models whether payload.decode("utf-8")
succeeds rather than raising UnicodeDecodeError. -/
def utf8Valid (bs : Bytes) : Bool := utf8Go bs.length bs

/-! ## Decoded payload messages

Shapes of the decoded application records, limited to the fields the core
reads. Field extraction from parsed bytes is abstracted (external protobuf);
theorems that depend on decoded content universally quantify over it. -/

/-- Decoded Position record (zero is the absent sentinel). -/
structure PositionMsg where
  latitude_i : Int
  longitude_i : Int
deriving DecidableEq, Repr, Inhabited

/-- Decoded User (node-identity) record. -/
structure UserMsg where
  id : String
  long_name : String
  short_name : String
  hw_model : Nat
  role : Nat
deriving DecidableEq, Repr, Inhabited

/-- Decoded NeighborInfo record: the node ids of the listed neighbors. -/
structure NeighborInfoMsg where
  neighbors : List Nat
deriving DecidableEq, Repr, Inhabited

/-- Decoded Telemetry record (content unused by the core). -/
structure TelemetryMsg where
deriving DecidableEq, Repr, Inhabited

/-- Decoded Routing record (content unused by the core). -/
structure RoutingMsg where
deriving DecidableEq, Repr, Inhabited

/-- Decoded RouteDiscovery (traceroute) record: the hop list. -/
structure RouteDiscoveryMsg where
  route : List Nat
deriving DecidableEq, Repr, Inhabited

/-- Decoded MapReport record. -/
structure MapReportMsg where
  long_name : String
  short_name : String
  hw_model : Nat
  role : Nat
  firmware_version : String
  latitude_i : Int
  longitude_i : Int
deriving DecidableEq, Repr, Inhabited

/-- The typed value returned by decode_payload: one variant per known port.
A text message carries the UTF-8 byte string it decodes to. -/
inductive PayloadVal where
  | position (p : PositionMsg)
  | neighborInfo (n : NeighborInfoMsg)
  | nodeInfo (u : UserMsg)
  | telemetry (t : TelemetryMsg)
  | traceroute (r : RouteDiscoveryMsg)
  | routing (r : RoutingMsg)
  | text (b : Bytes)
  | mapReport (m : MapReportMsg)
deriving DecidableEq, Repr

/-- The exceptions caught by decode_payload (DecodeError from protobuf,
UnicodeDecodeError from the text codec). -/
inductive DecodeFailure where
  | decodeError
  | unicodeDecodeError
deriving DecidableEq, Repr

/-- Modelled from the spec: abstract field extraction of a successfully
parsed Position (external protobuf). -/
def positionOfBytes (_ : Bytes) : PositionMsg := ⟨0, 0⟩

/-- Modelled from the spec: abstract field extraction of a parsed User. -/
def userOfBytes (_ : Bytes) : UserMsg := ⟨"", "", "", 0, 0⟩

/-- Modelled from the spec: abstract field extraction of a parsed
NeighborInfo. -/
def neighborInfoOfBytes (_ : Bytes) : NeighborInfoMsg := ⟨[]⟩

/-- Modelled from the spec: abstract field extraction of a parsed
RouteDiscovery. -/
def routeDiscoveryOfBytes (_ : Bytes) : RouteDiscoveryMsg := ⟨[]⟩

/-- Modelled from the spec: abstract field extraction of a parsed MapReport. -/
def mapReportOfBytes (_ : Bytes) : MapReportMsg := ⟨"", "", 0, 0, "", 0, 0⟩

/-- Position.FromString: parse or DecodeError. -/
def positionFromString (b : Bytes) : Except DecodeFailure PayloadVal :=
  if protoWireOk b then .ok (.position (positionOfBytes b)) else .error .decodeError

/-- NeighborInfo.FromString: parse or DecodeError. -/
def neighborInfoFromString (b : Bytes) : Except DecodeFailure PayloadVal :=
  if protoWireOk b then .ok (.neighborInfo (neighborInfoOfBytes b)) else .error .decodeError

/-- User.FromString: parse or DecodeError. -/
def userFromString (b : Bytes) : Except DecodeFailure PayloadVal :=
  if protoWireOk b then .ok (.nodeInfo (userOfBytes b)) else .error .decodeError

/-- Telemetry.FromString: parse or DecodeError. -/
def telemetryFromString (b : Bytes) : Except DecodeFailure PayloadVal :=
  if protoWireOk b then .ok (.telemetry ⟨⟩) else .error .decodeError

/-- RouteDiscovery.FromString: parse or DecodeError. -/
def routeDiscoveryFromString (b : Bytes) : Except DecodeFailure PayloadVal :=
  if protoWireOk b then .ok (.traceroute (routeDiscoveryOfBytes b)) else .error .decodeError

/-- Routing.FromString: parse or DecodeError. -/
def routingFromString (b : Bytes) : Except DecodeFailure PayloadVal :=
  if protoWireOk b then .ok (.routing ⟨⟩) else .error .decodeError

/-- text_message of decode_payload.py: payload.decode("utf-8") or
UnicodeDecodeError. -/
def textMessage (b : Bytes) : Except DecodeFailure PayloadVal :=
  if utf8Valid b then .ok (.text b) else .error .unicodeDecodeError

/-- MapReport.FromString: parse or DecodeError. -/
def mapReportFromString (b : Bytes) : Except DecodeFailure PayloadVal :=
  if protoWireOk b then .ok (.mapReport (mapReportOfBytes b)) else .error .decodeError

/-- Application port numbers (meshtastic portnums, external enumeration;
values as published). -/
def PortNum.TEXT_MESSAGE_APP : Nat := 1

/-- POSITION_APP port number. -/
def PortNum.POSITION_APP : Nat := 3

/-- NODEINFO_APP port number. -/
def PortNum.NODEINFO_APP : Nat := 4

/-- ROUTING_APP port number. -/
def PortNum.ROUTING_APP : Nat := 5

/-- TELEMETRY_APP port number. -/
def PortNum.TELEMETRY_APP : Nat := 67

/-- TRACEROUTE_APP port number. -/
def PortNum.TRACEROUTE_APP : Nat := 70

/-- NEIGHBORINFO_APP port number. -/
def PortNum.NEIGHBORINFO_APP : Nat := 71

/-- MAP_REPORT_APP port number. -/
def PortNum.MAP_REPORT_APP : Nat := 73

/-- The DECODE_MAP of decode_payload.py: known port numbers paired with
their type-specific decoders. -/
def DECODE_MAP : List (Nat × (Bytes → Except DecodeFailure PayloadVal)) :=
  [(PortNum.POSITION_APP, positionFromString),
   (PortNum.NEIGHBORINFO_APP, neighborInfoFromString),
   (PortNum.NODEINFO_APP, userFromString),
   (PortNum.TELEMETRY_APP, telemetryFromString),
   (PortNum.TRACEROUTE_APP, routeDiscoveryFromString),
   (PortNum.ROUTING_APP, routingFromString),
   (PortNum.TEXT_MESSAGE_APP, textMessage),
   (PortNum.MAP_REPORT_APP, mapReportFromString)]

/-- decode_payload of decode_payload.py: dispatch on the port number over
DECODE_MAP; an unknown port yields none; a caught decode failure yields
none. -/
def decode_payload (portnum : Nat) (payload : Bytes) : Option PayloadVal :=
  match DECODE_MAP.find? (fun e => e.1 == portnum) with
  | none => none
  | some e =>
    match e.2 payload with
    | .ok v => some v
    | .error _ => none

/-! ## Mesh packets, envelopes and the transport consumer

Embedding of the data carried by a ServiceEnvelope and of the per-message
pipeline of mqtt_reader.get_topic_envelopes. Signal metrics are carried but
never interpreted by the claims; rx_snr (a float in the wire format) is
modelled as an integer-valued carrier. -/

/-- The decoded (plaintext) section of a mesh packet, limited to the fields
the core reads. -/
structure DataMsg where
  portnum : Nat
  payload : Bytes
  want_response : Bool
  request_id : Nat
deriving DecidableEq, Repr, Inhabited

/-- The default Data submessage returned by protobuf attribute access when
the field is unset. -/
def defaultData : DataMsg := ⟨0, [], false, 0⟩

/-- A mesh packet record. The decoded section is an Option tracking protobuf
field presence (HasField); fromNode models the protobuf field named from,
which the source reads via getattr. -/
structure MeshPacket where
  id : Nat
  fromNode : Nat
  toNode : Nat
  rx_time : Nat
  rx_snr : Int
  rx_rssi : Int
  hop_limit : Nat
  hop_start : Nat
  decoded : Option DataMsg
  encrypted : Bytes
deriving DecidableEq, Repr

/-- Reading packet.decoded in Python: the set submessage if present, else the
default (unset) submessage. -/
def MeshPacket.decodedF (p : MeshPacket) : DataMsg := p.decoded.getD defaultData

/-- The outer transport envelope: packet plus routing metadata. -/
structure Env where
  packet : MeshPacket
  channel_id : String
  gateway_id : String
deriving DecidableEq, Repr

/-- Modelled from the spec: the external Data.ParseFromString attempt on the
decrypted bytes; success is wire-level well-formedness, extraction is
abstract. On failure the decoded field stays unset. -/
def dataFromBytes (b : Bytes) : Option DataMsg :=
  if protoWireOk b then some ⟨0, [], false, 0⟩ else none

/-- decrypt of mqtt_reader.py: no-op when a decoded section is present;
otherwise AES-128-CTR under the fixed key and the id/origin nonce, then an
attempted parse of the plaintext as the inner Data frame, leaving the packet
unchanged when the parse fails. -/
def decrypt (p : MeshPacket) : MeshPacket :=
  if p.decoded.isSome then p
  else
    match dataFromBytes (decryptRaw p.id p.fromNode p.encrypted) with
    | some d => { p with decoded := some d }
    | none => p

/-- Python truthiness of a protobuf submessage: message instances define
neither a bool conversion nor a length, so bool(packet.decoded) is True
whether or not the field is set. -/
def pyMessageTruthy (_ : Option DataMsg) : Bool := true

/-- The static reject-list origin id hard-coded in mqtt_reader.py. -/
def skippedNodeId : Nat := 2144342101

/-- One inbound transport frame of get_topic_envelopes, after the external
ServiceEnvelope.FromString attempt: none models a DecodeError (the frame is
dropped by continue), some is the parsed envelope. -/
def consumerStep (topic : String) (parsed : Option Env) : Option (String × Env) :=
  match parsed with
  | none => none
  | some envelope =>
    let envelope := { envelope with packet := decrypt envelope.packet }
    if !pyMessageTruthy envelope.packet.decoded then none
    else if envelope.packet.fromNode == skippedNodeId then none
    else some (topic, envelope)

/-- The sequence of (topic, envelope) pairs yielded by
mqtt_reader.get_topic_envelopes for a given sequence of inbound frames; the
reconnect loop and message counters do not change which envelopes are
yielded. -/
def getTopicEnvelopes (msgs : List (String × Option Env)) : List (String × Env) :=
  msgs.filterMap fun m => consumerStep m.1 m.2

/-! ## Durable storage state

Row shapes of meshview/models.py restricted to the columns the ingestion
processor writes and the claims read; wall-clock import timestamps are
external input and are omitted. Nullable columns are Options. -/

/-- A Packet row: at most one per message id. -/
structure PacketRow where
  id : Nat
  portnum : Nat
  from_node_id : Nat
  to_node_id : Nat
  payload : Bytes
  channel : String
deriving DecidableEq, Repr

/-- A PacketSeen row: one observation of a packet by one gateway. -/
structure PacketSeenRow where
  packet_id : Nat
  node_id : Nat
  channel : String
  rx_time : Nat
  rx_snr : Int
  rx_rssi : Int
  hop_limit : Nat
  hop_start : Nat
  topic : String
deriving DecidableEq, Repr

/-- A Node row keyed by the user-id string. -/
structure NodeRow where
  id : String
  node_id : Option Nat
  long_name : String
  short_name : String
  hw_model : String
  role : String
  channel : String
  firmware : Option String
  last_lat : Option Int
  last_long : Option Int
deriving DecidableEq, Repr

/-- A Traceroute row (the autoincrement surrogate key is the list position). -/
structure TracerouteRow where
  packet_id : Nat
  route : Bytes
  done : Bool
  gateway_node_id : Nat
deriving DecidableEq, Repr

/-- The committed durable store. -/
structure DB where
  packets : List PacketRow
  seens : List PacketSeenRow
  nodes : List NodeRow
  traceroutes : List TracerouteRow
deriving DecidableEq, Repr

/-- The empty store. -/
def DB.empty : DB := ⟨[], [], [], []⟩

/-! ## Ingestion processor (mqtt_store.process_envelope)

The map-report branch runs in its own unit of work and commits first; the
generic path then stages a packet insert, a seen-row insert, node upserts
and a traceroute insert in a second unit of work, committed at the end. An
early return leaves the second unit of work uncommitted, which discards its
staged changes; the returned flag records whether an uncaught exception
escaped (only the int() parse of a non-empty malformed gateway id). -/

/-- Value of one hexadecimal digit character. -/
def hexDigitVal (c : Char) : Option Nat :=
  if 48 ≤ c.toNat ∧ c.toNat ≤ 57 then some (c.toNat - 48)
  else if 97 ≤ c.toNat ∧ c.toNat ≤ 102 then some (c.toNat - 87)
  else if 65 ≤ c.toNat ∧ c.toNat ≤ 70 then some (c.toNat - 55)
  else none

/-- int(s, 16) on the plain hexadecimal digit strings that gateway ids use:
none models the ValueError raised on an empty or non-hexadecimal string. -/
def parseHexNat (s : String) : Option Nat :=
  if s.isEmpty then none
  else s.data.foldl (fun acc c => acc.bind fun v => (hexDigitVal c).map fun d => 16 * v + d)
    (some 0)

/-- int(env.gateway_id[1:], 16): the numeric gateway address. -/
def parseGatewayId (g : String) : Option Nat := parseHexNat (g.drop 1)

/-- One lowercase hexadecimal digit character. -/
def toHexDigitChar (n : Nat) : Char :=
  if n < 10 then Char.ofNat (48 + n) else Char.ofNat (87 + n)

/-- Fixed-width 8-digit lowercase hexadecimal rendering of a 32-bit address,
as in the f-string of mqtt_store.py line 18. -/
def natToHex8 (n : Nat) : String :=
  String.mk ((List.range 8).map fun i => toHexDigitChar (n / 16 ^ (7 - i) % 16))

/-- The derived fallback identity string of the map-report branch. -/
def userIdOf (n : Nat) : String := "!" ++ natToHex8 n

/-- Modelled from the spec: the external HardwareModel enum rendering of
hardware codes to strings (with the unknown-code fallback folded into one
total rendering; no claim inspects the string itself). -/
def hwModelName (n : Nat) : String := "HWMODEL_" ++ toString n

/-- Modelled from the spec: the external device-role enum rendering. -/
def roleName (n : Nat) : String := "ROLE_" ++ toString n

/-- Replace the first row satisfying the predicate. -/
def replaceFirst (p : NodeRow → Bool) (f : NodeRow → NodeRow) : List NodeRow → List NodeRow
  | [] => []
  | n :: rest => if p n then f n :: rest else n :: replaceFirst p f rest

/-- The MAP_REPORT_APP branch of process_envelope: decode the map report and
upsert the reporting node by numeric address in its own unit of work. A
failure inside the branch (a payload that does not decode) is caught and the
unit of work commits nothing. -/
def mapReportBranch (env : Env) (db : DB) : DB :=
  if env.packet.decodedF.portnum == PortNum.MAP_REPORT_APP then
    let node_id := env.packet.fromNode
    match decode_payload PortNum.MAP_REPORT_APP env.packet.decodedF.payload with
    | some (.mapReport mr) =>
      let hw := hwModelName mr.hw_model
      let rl := roleName mr.role
      let upd : NodeRow → NodeRow := fun n =>
        { n with
          node_id := some node_id
          long_name := mr.long_name
          short_name := mr.short_name
          hw_model := hw
          role := rl
          channel := env.channel_id
          last_lat := some mr.latitude_i
          last_long := some mr.longitude_i
          firmware := some mr.firmware_version }
      let fresh : NodeRow :=
        { id := userIdOf node_id
          node_id := some node_id
          long_name := mr.long_name
          short_name := mr.short_name
          hw_model := hw
          role := rl
          channel := env.channel_id
          firmware := some mr.firmware_version
          last_lat := some mr.latitude_i
          last_long := some mr.longitude_i }
      match db.nodes.find? (fun n => n.node_id == some node_id) with
      | some _ =>
        { db with nodes := replaceFirst (fun n => n.node_id == some node_id) upd db.nodes }
      | none =>
        { db with nodes := db.nodes ++ [fresh] }
    | _ => db
  else db

/-- The NODEINFO_APP enrichment: upsert the node by its identity string,
deriving the numeric address only from a well-formed bang-hex id. Decode
failure gives user None, and the branch body is skipped. -/
def nodeInfoBranch (env : Env) (nodes : List NodeRow) : List NodeRow :=
  if env.packet.decodedF.portnum == PortNum.NODEINFO_APP then
    match decode_payload PortNum.NODEINFO_APP env.packet.decodedF.payload with
    | some (.nodeInfo user) =>
      if user.id ≠ "" then
        let node_id : Option Nat :=
          if user.id.startsWith "!" then parseHexNat (user.id.drop 1) else none
        let upd : NodeRow → NodeRow := fun n =>
          { n with node_id := node_id, long_name := user.long_name,
                   short_name := user.short_name, hw_model := hwModelName user.hw_model,
                   role := roleName user.role, channel := env.channel_id }
        match nodes.find? (fun n => n.id == user.id) with
        | some _ => replaceFirst (fun n => n.id == user.id) upd nodes
        | none => nodes ++
            [{ id := user.id, node_id := node_id, long_name := user.long_name,
               short_name := user.short_name, hw_model := hwModelName user.hw_model,
               role := roleName user.role, channel := env.channel_id,
               firmware := none, last_lat := none, last_long := none }]
      else nodes
    | _ => nodes
  else nodes

/-- The POSITION_APP enrichment: update the origin node position when both
coordinates are non-zero. -/
def positionBranch (env : Env) (nodes : List NodeRow) : List NodeRow :=
  if env.packet.decodedF.portnum == PortNum.POSITION_APP then
    match decode_payload PortNum.POSITION_APP env.packet.decodedF.payload with
    | some (.position pos) =>
      if pos.latitude_i ≠ 0 ∧ pos.longitude_i ≠ 0 then
        let upd : NodeRow → NodeRow := fun n =>
          { n with
            last_lat := some pos.latitude_i
            last_long := some pos.longitude_i }
        match nodes.find? (fun n => n.node_id == some env.packet.fromNode) with
        | some _ =>
          replaceFirst (fun n => n.node_id == some env.packet.fromNode) upd nodes
        | none => nodes
      else nodes
    | _ => nodes
  else nodes

/-- Modelled from the spec: the external protobuf serializer for the stored
raw frame; its bytes are opaque to every claim. -/
def serializeMeshPacket (_ : MeshPacket) : Bytes := []

/-- Insert-or-ignore keyed on the packet id (ON CONFLICT DO NOTHING). -/
def applyPacketInsert (ps : List PacketRow) : Option PacketRow → List PacketRow
  | none => ps
  | some row => if (ps.find? (fun p => p.id == row.id)).isSome then ps else ps ++ [row]

/-- process_envelope of mqtt_store.py. Returns the committed store and a
flag that is true when an uncaught exception escaped the call. -/
def process_envelope (topic : String) (env : Env) (db0 : DB) : DB × Bool :=
  let db := mapReportBranch env db0
  if env.packet.id == 0 then (db, false)
  else
    let packetInsert : Option PacketRow :=
      if (db.packets.find? (fun p => p.id == env.packet.id)).isSome then none
      else some { id := env.packet.id, portnum := env.packet.decodedF.portnum,
                  from_node_id := env.packet.fromNode, to_node_id := env.packet.toNode,
                  payload := serializeMeshPacket env.packet, channel := env.channel_id }
    if env.gateway_id == "" then (db, false)
    else
      match parseGatewayId env.gateway_id with
      | none => (db, true)
      | some gw =>
        let seenInsert : Option PacketSeenRow :=
          if (db.seens.find? (fun s =>
                s.packet_id == env.packet.id && s.node_id == gw
                  && s.rx_time == env.packet.rx_time)).isSome then none
          else some { packet_id := env.packet.id, node_id := gw,
                      channel := env.channel_id, rx_time := env.packet.rx_time,
                      rx_snr := env.packet.rx_snr, rx_rssi := env.packet.rx_rssi,
                      hop_limit := env.packet.hop_limit,
                      hop_start := env.packet.hop_start, topic := topic }
        let nodes1 := nodeInfoBranch env db.nodes
        let nodes2 := positionBranch env nodes1
        let trInsert : Option TracerouteRow :=
          if env.packet.decodedF.portnum == PortNum.TRACEROUTE_APP then
            some { packet_id := env.packet.id, route := env.packet.decodedF.payload,
                   done := !env.packet.decodedF.want_response, gateway_node_id := gw }
          else none
        ({ packets := applyPacketInsert db.packets packetInsert,
           seens := db.seens ++ seenInsert.toList,
           nodes := nodes2,
           traceroutes := db.traceroutes ++ trInsert.toList }, false)

/-! ## Topology builder (web.graph_network)

Embedding of the edge aggregation, root-scoped reachability and edge
rendering of the graph_network handler. Inputs are the rows the three store
queries return for the selected window, with the route list of a traceroute
row given in decoded form (the stored bytes decode through the external
protobuf parser, abstracted above). The edges Counter and the edge_type dict
are modelled as insertion-ordered association lists, and the node sets as
insertion-ordered duplicate-free lists. -/

/-- An ordered pair of node ids: one directed edge key. -/
abbrev EdgeKey := Nat × Nat

/-- Counter increment: edges[k] += 1. -/
def bumpW : List (EdgeKey × Nat) → EdgeKey → List (EdgeKey × Nat)
  | [], q => [(q, 1)]
  | (k, n) :: rest, q =>
    if k == q then (k, n + 1) :: rest else (k, n) :: bumpW rest q

/-- Dict assignment: edge_type[k] = tag. -/
def setT : List (EdgeKey × String) → EdgeKey → String → List (EdgeKey × String)
  | [], q, tag => [(q, tag)]
  | (k, t) :: rest, q, tag =>
    if k == q then (k, tag) :: rest else (k, t) :: setT rest q tag

/-- Counter lookup with default 0. -/
def lookupW : List (EdgeKey × Nat) → EdgeKey → Nat
  | [], _ => 0
  | (k, n) :: rest, q => if k == q then n else lookupW rest q

/-- Dict lookup. -/
def lookupT : List (EdgeKey × String) → EdgeKey → Option String
  | [], _ => none
  | (k, t) :: rest, q => if k == q then some t else lookupT rest q

/-- Key membership in the edges Counter. -/
def keysContain (ew : List (EdgeKey × Nat)) (k : EdgeKey) : Bool :=
  (ew.find? (fun e => e.1 == k)).isSome

/-- Add one evidence occurrence per pair under one type tag, in list order:
for each pair, edges[pair] += 1 and edge_type[pair] = tag. -/
def addPairs (tag : String) :
    List EdgeKey → List (EdgeKey × Nat) × List (EdgeKey × String) →
    List (EdgeKey × Nat) × List (EdgeKey × String)
  | [], acc => acc
  | p :: ps, (ew, et) => addPairs tag ps (bumpW ew p, setT et p tag)

/-- One row of get_mqtt_neighbors: a PacketSeen joined with its Packet. -/
structure SniInput where
  ps_node_id : Nat
  from_node_id : Nat
deriving DecidableEq, Repr

/-- One NEIGHBORINFO_APP packet with its decoded neighbor node ids. -/
structure NeighborInput where
  from_node_id : Nat
  neighbors : List Nat
deriving DecidableEq, Repr

/-- One Traceroute row joined with its Packet, with the decoded hop list. -/
structure TrInput where
  packet_id : Nat
  gateway_node_id : Nat
  from_node_id : Nat
  to_node_id : Nat
  done : Bool
  route : List Nat
deriving DecidableEq, Repr

/-- The directed pairs contributed by the uplink/seen loop, in order. -/
def sniPairs (l : List SniInput) : List EdgeKey :=
  l.map fun s => (s.from_node_id, s.ps_node_id)

/-- The directed pairs contributed by the neighbor-table loop, in order:
one edge from each listed neighbor to the packet origin. -/
def niPairs (l : List NeighborInput) : List EdgeKey :=
  l.flatMap fun n => n.neighbors.map fun m => (m, n.from_node_id)

/-- Path reconstruction for one traceroute row: origin, the hop list, then
the destination if done, else the gateway when it is not already the last
element. -/
def trPath (t : TrInput) : List Nat :=
  let p := t.from_node_id :: t.route
  if t.done then p ++ [t.to_node_id]
  else if p.getLast? ≠ some t.gateway_node_id then p ++ [t.gateway_node_id]
  else p

/-- Consecutive pairs of a path: zip(path, path[1:]). -/
def pathPairs (p : List Nat) : List EdgeKey := p.zip p.tail

/-- The tr_done de-duplication of the traceroute loop: among done rows, only
the first row per packet id is kept; not-done rows are all kept. -/
def trSelect : List TrInput → List Nat → List TrInput
  | [], _ => []
  | t :: rest, seen =>
    if t.done then
      if t.packet_id ∈ seen then trSelect rest seen
      else t :: trSelect rest (t.packet_id :: seen)
    else t :: trSelect rest seen

/-- The directed pairs contributed by the traceroute loop, in order. -/
def trPairs (trs : List TrInput) : List EdgeKey :=
  (trSelect trs []).flatMap fun t => pathPairs (trPath t)

/-- The aggregated edges Counter and edge_type dict of graph_network: the
uplink/seen loop runs first, then the neighbor-table loop, then the
traceroute loop. -/
def buildEdges (sni : List SniInput) (ni : List NeighborInput) (trs : List TrInput) :
    List (EdgeKey × Nat) × List (EdgeKey × String) :=
  addPairs "tr" (trPairs trs)
    (addPairs "ni" (niPairs ni)
      (addPairs "sni" (sniPairs sni) ([], [])))

/-- Set insertion preserving first-insertion order. -/
def addSet (l : List Nat) (x : Nat) : List Nat := if x ∈ l then l else l ++ [x]

/-- edge_map.setdefault(dest, []).append(src). -/
def emAdd : List (Nat × List Nat) → Nat → Nat → List (Nat × List Nat)
  | [], dest, src => [(dest, [src])]
  | (d, l) :: rest, dest, src =>
    if d == dest then (d, l ++ [src]) :: rest else (d, l) :: emAdd rest dest src

/-- The reverse adjacency index of the root-scoped query: destination to the
list of sources, built over the aggregated edge keys. -/
def edgeMapOf (keys : List EdgeKey) : List (Nat × List Nat) :=
  keys.foldl (fun em k => emAdd em k.2 k.1) []

/-- edge_map.get(node, []). -/
def emGet (em : List (Nat × List Nat)) (n : Nat) : List Nat :=
  match em.find? (fun e => e.1 == n) with
  | some e => e.2
  | none => []

/-- Processing of one queue node in one BFS level: mark the node visited,
then for each source of an edge into it, mark it, count the traversed edge
and enqueue it. -/
def bfsStepNode (em : List (Nat × List Nat)) (node : Nat)
    (vis : List Nat) (ne : List (EdgeKey × Nat)) (nq : List Nat) :
    List Nat × List (EdgeKey × Nat) × List Nat :=
  let vis := addSet vis node
  (emGet em node).foldl
    (fun acc dest => (addSet acc.1 dest, bumpW acc.2.1 (dest, node), acc.2.2 ++ [dest]))
    (vis, ne, nq)

/-- One BFS level over the whole queue. -/
def bfsQueue (em : List (Nat × List Nat)) :
    List Nat → List Nat → List (EdgeKey × Nat) → List Nat →
    List Nat × List (EdgeKey × Nat) × List Nat
  | [], vis, ne, nq => (vis, ne, nq)
  | node :: rest, vis, ne, nq =>
    let r := bfsStepNode em node vis ne nq
    bfsQueue em rest r.1 r.2.1 r.2.2

/-- The depth-bounded BFS loop of the root-scoped query. -/
def bfsRounds (em : List (Nat × List Nat)) :
    Nat → List Nat → List Nat → List (EdgeKey × Nat) →
    List Nat × List (EdgeKey × Nat)
  | 0, _, vis, ne => (vis, ne)
  | d + 1, queue, vis, ne =>
    let r := bfsQueue em queue vis ne []
    bfsRounds em d r.2.2 r.1 r.2.1

/-- Root-scoped reachability: the visited-node set (new_used_nodes) and the
traversal-local edge counts (new_edges) for a given root and depth. -/
def rootScope (edgeItems : List (EdgeKey × Nat)) (root depth : Nat) :
    List Nat × List (EdgeKey × Nat) :=
  bfsRounds (edgeMapOf (edgeItems.map Prod.fst)) depth [root] [] []

/-- Edge-rendering worker over the items of the edges Counter, carrying the
edge_added set: an edge whose reverse carries the same type tag is rendered
once as bidirectional; an edge already added is skipped. -/
def renderGo (ewFull : List (EdgeKey × Nat)) (et : List (EdgeKey × String)) :
    List (EdgeKey × Nat) → List EdgeKey → List (Nat × Nat × String)
  | [], _ => []
  | (k, _) :: rest, added =>
    let s := k.1
    let d := k.2
    let isBoth := keysContain ewFull (d, s) && (lookupT et (s, d) == lookupT et (d, s))
    let dir := if isBoth then "both" else "forward"
    let added1 := if isBoth then (d, s) :: added else added
    if (s, d) ∈ added1 then renderGo ewFull et rest added1
    else (s, d, dir) :: renderGo ewFull et rest ((s, d) :: added1)

/-- The edges emitted to the rendered graph, in Counter order. -/
def renderEdges (ew : List (EdgeKey × Nat)) (et : List (EdgeKey × String)) :
    List (Nat × Nat × String) :=
  renderGo ew et ew []

/-- The number of Packet rows stored under a given message id. -/
def countById (ps : List PacketRow) (i : Nat) : Nat :=
  ps.countP (fun p => p.id == i)

/-! ## Concrete test fixtures

Closed envelopes used by counterexamples and witnesses. -/

/-- A text-message envelope with message id 1 and an empty gateway id. -/
def envNoGw : Env :=
  { packet :=
      { id := 1, fromNode := 7, toNode := 8, rx_time := 100, rx_snr := 5,
        rx_rssi := -80, hop_limit := 3, hop_start := 3,
        decoded := some { portnum := 1, payload := [104, 105],
                          want_response := false, request_id := 0 },
        encrypted := [] }
    channel_id := "LongFast"
    gateway_id := "" }

/-- The same envelope with a well-formed gateway id. -/
def envGw : Env := { envNoGw with gateway_id := "!0000000a" }

/-- An inbound route-discovery probe (want_response true) whose request id
resolves to nothing. -/
def envTrProbe : Env :=
  { packet :=
      { id := 5, fromNode := 1, toNode := 2, rx_time := 100, rx_snr := 5,
        rx_rssi := -80, hop_limit := 3, hop_start := 3,
        decoded := some { portnum := 70, payload := [8, 9],
                          want_response := true, request_id := 999 },
        encrypted := [] }
    channel_id := "LongFast"
    gateway_id := "!0a" }

/-- A route-discovery reply (want_response false). -/
def envTrReply : Env :=
  { envTrProbe with
    packet := { envTrProbe.packet with
                id := 6
                decoded := some { portnum := 70, payload := [8, 9],
                                  want_response := false, request_id := 5 } } }

/-- A map-report envelope with message id 0 whose payload does not decode
(a truncated varint). -/
def envMr0 : Env :=
  { packet :=
      { id := 0, fromNode := 7, toNode := 8, rx_time := 100, rx_snr := 5,
        rx_rssi := -80, hop_limit := 3, hop_start := 3,
        decoded := some { portnum := 73, payload := [255],
                          want_response := false, request_id := 0 },
        encrypted := [] }
    channel_id := "c"
    gateway_id := "!0000000a" }

/-- A map-report envelope with message id 0 whose payload decodes (the empty
message). -/
def envMr1 : Env :=
  { envMr0 with
    packet := { envMr0.packet with
                decoded := some { portnum := 73, payload := [],
                                  want_response := false, request_id := 0 } } }

/-- A transport envelope whose packet has no decoded section and whose
encrypted byte decrypts (under the fixed key and the nonce of id 1, origin 2)
to the byte 255, which is not a parseable inner frame. -/
def envC8 : Env :=
  { packet :=
      { id := 1, fromNode := 2, toNode := 3, rx_time := 0, rx_snr := 0,
        rx_rssi := 0, hop_limit := 0, hop_start := 0,
        decoded := none, encrypted := [226] }
    channel_id := "c"
    gateway_id := "!0a" }

/-! ## Supporting lemmas -/

theorem length_addRoundKey (s rk : List Nat) : (addRoundKey s rk).length = 16 := by
  simp [addRoundKey]

theorem length_aesEncryptBlock (key block : List Nat) :
    (aesEncryptBlock key block).length = 16 := by
  simp [aesEncryptBlock, length_addRoundKey]

theorem length_ksFrom (key nonce : Bytes) (i n : Nat) :
    (ksFrom key nonce i n).length = 16 * n := by
  induction n generalizing i with
  | zero => rfl
  | succ n ih =>
    simp [ksFrom, length_aesEncryptBlock, ih]
    ring

theorem zipWith_xor_xor (d ks : List Nat) (h : d.length ≤ ks.length) :
    List.zipWith (· ^^^ ·) (List.zipWith (· ^^^ ·) d ks) ks = d := by
  induction d generalizing ks with
  | nil => simp
  | cons a d ih =>
    cases ks with
    | nil => simp at h
    | cons k ks =>
      simp only [List.zipWith]
      rw [Nat.xor_assoc, Nat.xor_self, Nat.xor_zero]
      simp only [List.length_cons, Nat.succ_le_succ_iff] at h
      rw [ih ks h]

theorem le_ctr_blocks (n : Nat) : n ≤ 16 * ((n + 15) / 16) := by omega

theorem length_ctrCrypt (key nonce data : Bytes) :
    (ctrCrypt key nonce data).length = data.length := by
  simp only [ctrCrypt, List.length_zipWith, length_ksFrom]
  exact Nat.min_eq_left (le_ctr_blocks data.length)

theorem ctrCrypt_involutive (key nonce data : Bytes) :
    ctrCrypt key nonce (ctrCrypt key nonce data) = data := by
  conv_lhs => rw [ctrCrypt, length_ctrCrypt]
  exact zipWith_xor_xor data (ksFrom key nonce 0 ((data.length + 15) / 16))
    (by rw [length_ksFrom]; exact le_ctr_blocks _)

theorem mapReportBranch_packets (env : Env) (db : DB) :
    (mapReportBranch env db).packets = db.packets := by
  unfold mapReportBranch
  split
  · split
    · dsimp only
      split <;> rfl
    · rfl
  · rfl

theorem mapReportBranch_seens (env : Env) (db : DB) :
    (mapReportBranch env db).seens = db.seens := by
  unfold mapReportBranch
  split
  · split
    · dsimp only
      split <;> rfl
    · rfl
  · rfl

theorem mapReportBranch_traceroutes (env : Env) (db : DB) :
    (mapReportBranch env db).traceroutes = db.traceroutes := by
  unfold mapReportBranch
  split
  · split
    · dsimp only
      split <;> rfl
    · rfl
  · rfl

theorem countById_pos_iff (ps : List PacketRow) (i : Nat) :
    0 < countById ps i ↔ (ps.find? (fun p => p.id == i)).isSome := by
  rw [countById, List.countP_pos_iff, List.find?_isSome]

theorem countById_append (ps qs : List PacketRow) (i : Nat) :
    countById (ps ++ qs) i = countById ps i + countById qs i := by
  simp [countById, List.countP_append]

theorem process_count_gw (t : String) (env : Env) (db : DB)
    (hid : env.packet.id ≠ 0) (hgw : env.gateway_id ≠ "")
    (gw : Nat) (hp : parseGatewayId env.gateway_id = some gw) :
    countById (process_envelope t env db).1.packets env.packet.id
      = max (countById db.packets env.packet.id) 1
    ∧ (process_envelope t env db).2 = false := by
  have h0 : (env.packet.id == 0) = false := by simp [hid]
  have h1 : (env.gateway_id == "") = false := by simp [hgw]
  unfold process_envelope
  simp only [h0, h1, hp, Bool.false_eq_true, if_false]
  rw [mapReportBranch_packets]
  by_cases hfind : (db.packets.find? (fun p => p.id == env.packet.id)).isSome
  · have hcnt : 0 < countById db.packets env.packet.id :=
      (countById_pos_iff db.packets env.packet.id).mpr hfind
    simp [applyPacketInsert, hfind]
    omega
  · have hcnt : countById db.packets env.packet.id = 0 := by
      by_contra hc
      exact hfind ((countById_pos_iff db.packets env.packet.id).mp (Nat.pos_of_ne_zero hc))
    rw [countById] at hcnt
    simp [applyPacketInsert, hfind, countById_append, countById]
    omega

theorem replaceFirst_mem (p : NodeRow → Bool) (f : NodeRow → NodeRow)
    (l : List NodeRow) (n0 : NodeRow) (h : l.find? p = some n0) :
    f n0 ∈ replaceFirst p f l := by
  induction l with
  | nil => simp [List.find?] at h
  | cons x rest ih =>
    by_cases hx : p x
    · rw [List.find?_cons_of_pos _ hx] at h
      cases h
      simp [replaceFirst, hx]
    · rw [List.find?_cons_of_neg _ hx] at h
      simp [replaceFirst, hx]
      exact Or.inr (ih h)

theorem lookupW_bumpW (l : List (EdgeKey × Nat)) (k q : EdgeKey) :
    lookupW (bumpW l k) q = lookupW l q + (if k = q then 1 else 0) := by
  induction l with
  | nil => by_cases h : k = q <;> simp [bumpW, lookupW, h]
  | cons e rest ih =>
    obtain ⟨k2, n⟩ := e
    by_cases h1 : k2 = k
    · subst h1
      by_cases h2 : k2 = q <;> simp [bumpW, lookupW, h2]
    · by_cases h2 : k2 = q
      · subst h2
        have : k ≠ k2 := fun hh => h1 hh.symm
        simp [bumpW, lookupW, h1, this]
      · simp [bumpW, lookupW, h1, h2, ih]

theorem lookupT_setT (l : List (EdgeKey × String)) (k : EdgeKey) (tag : String) (q : EdgeKey) :
    lookupT (setT l k tag) q = if k = q then some tag else lookupT l q := by
  induction l with
  | nil => by_cases h : k = q <;> simp [setT, lookupT, h]
  | cons e rest ih =>
    obtain ⟨k2, t⟩ := e
    by_cases h1 : k2 = k
    · subst h1
      by_cases h2 : k2 = q <;> simp [setT, lookupT, h2]
    · by_cases h2 : k2 = q
      · subst h2
        have : k ≠ k2 := fun hh => h1 hh.symm
        simp [setT, lookupT, h1, this]
      · simp [setT, lookupT, h1, h2, ih]

theorem addPairs_lookupW (tag : String) (ps : List EdgeKey)
    (acc : List (EdgeKey × Nat) × List (EdgeKey × String)) (q : EdgeKey) :
    lookupW (addPairs tag ps acc).1 q = lookupW acc.1 q + ps.count q := by
  induction ps generalizing acc with
  | nil => simp [addPairs]
  | cons p ps ih =>
    obtain ⟨ew, et⟩ := acc
    show lookupW (addPairs tag ps (bumpW ew p, setT et p tag)).1 q = _
    rw [ih, List.count_cons]
    simp only [lookupW_bumpW]
    by_cases h : p = q <;> simp [h] <;> omega

theorem addPairs_lookupT (tag : String) (ps : List EdgeKey)
    (acc : List (EdgeKey × Nat) × List (EdgeKey × String)) (q : EdgeKey) :
    lookupT (addPairs tag ps acc).2 q = if q ∈ ps then some tag else lookupT acc.2 q := by
  induction ps generalizing acc with
  | nil => simp [addPairs]
  | cons p ps ih =>
    obtain ⟨ew, et⟩ := acc
    show lookupT (addPairs tag ps (bumpW ew p, setT et p tag)).2 q = _
    rw [ih]
    by_cases hq : q ∈ ps
    · simp [hq]
    · by_cases hpq : p = q
      · simp [hq, hpq, lookupT_setT]
      · simp [hq, hpq, lookupT_setT, Ne.symm hpq]

theorem keysContain_of_mem (ew : List (EdgeKey × Nat)) (x : EdgeKey × Nat)
    (h : x ∈ ew) : keysContain ew x.1 = true := by
  rw [keysContain, Option.isSome_iff_exists]
  have : ∃ e ∈ ew, (fun e => e.1 == x.1) e := ⟨x, h, by simp⟩
  obtain ⟨e, he⟩ := List.find?_isSome.mpr this |> Option.isSome_iff_exists.mp
  exact ⟨e, he⟩

theorem renderGo_ne (ewFull : List (EdgeKey × Nat)) (et : List (EdgeKey × String)) :
    ∀ (l : List (EdgeKey × Nat)) (added : List EdgeKey),
      (∀ x ∈ l, keysContain ewFull x.1 = true) →
      ∀ s d dir, (s, d, dir) ∈ renderGo ewFull et l added → s ≠ d := by
  intro l
  induction l with
  | nil =>
    intro added _ s d dir h
    simp [renderGo] at h
  | cons e rest ih =>
    intro added hsub s d dir h
    obtain ⟨k, v⟩ := e
    have hk : keysContain ewFull k = true := hsub (k, v) (by simp)
    have hsub2 : ∀ x ∈ rest, keysContain ewFull x.1 = true :=
      fun x hx => hsub x (List.mem_cons_of_mem _ hx)
    simp only [renderGo] at h
    split at h
    · split at h
      · exact ih _ hsub2 s d dir h
      · rename_i hnm
        rcases List.mem_cons.mp h with h1 | h2
        · have hs : s = k.1 := congrArg (fun p => p.1) h1
          have hd : d = k.2 := congrArg (fun p => p.2.1) h1
          rw [hs, hd]
          intro heq
          apply hnm
          have hswap : (k.2, k.1) = (k.1, k.2) := by rw [heq]
          rw [hswap]
          exact List.mem_cons_self _ _
        · exact ih _ hsub2 s d dir h2
    · rename_i hCn
      split at h
      · exact ih _ hsub2 s d dir h
      · rcases List.mem_cons.mp h with h1 | h2
        · have hs : s = k.1 := congrArg (fun p => p.1) h1
          have hd : d = k.2 := congrArg (fun p => p.2.1) h1
          rw [hs, hd]
          intro heq
          apply hCn
          have hswap : (k.2, k.1) = (k.1, k.2) := by rw [heq]
          have hk1 : keysContain ewFull (k.1, k.2) = true := by simpa using hk
          rw [hswap, hk1]
          simp
        · exact ih _ hsub2 s d dir h2

/-! ## Claims -/

/-- C1 counterexample: the claim quantifies over every envelope with a
non-zero message id, but for an envelope whose gateway identifier is empty
the processor returns before the unit of work commits, so processing it
twice leaves zero Packet rows stored for that id, not exactly one. -/
theorem c1_counterexample :
    ¬ countById (process_envelope "msh/t" envNoGw
        (process_envelope "msh/t" envNoGw DB.empty).1).1.packets 1 = 1
    ∧ countById (process_envelope "msh/t" envNoGw
        (process_envelope "msh/t" envNoGw DB.empty).1).1.packets 1 = 0 := by
  decide

/-- C1 (amended): for every envelope with a non-zero message id and a
non-empty gateway identifier whose tail parses as hexadecimal, processing it
twice against a store holding at most one row for that id leaves exactly one
Packet row stored for that id, and neither attempt raises an error. -/
theorem c1_idempotent (t : String) (env : Env) (db : DB)
    (hid : env.packet.id ≠ 0) (hgw : env.gateway_id ≠ "")
    (gw : Nat) (hp : parseGatewayId env.gateway_id = some gw)
    (hinv : countById db.packets env.packet.id ≤ 1) :
    countById (process_envelope t env (process_envelope t env db).1).1.packets
      env.packet.id = 1
    ∧ (process_envelope t env db).2 = false
    ∧ (process_envelope t env (process_envelope t env db).1).2 = false := by
  obtain ⟨h1c, h1e⟩ := process_count_gw t env db hid hgw gw hp
  obtain ⟨h2c, h2e⟩ := process_count_gw t env (process_envelope t env db).1 hid hgw gw hp
  refine ⟨?_, h1e, h2e⟩
  rw [h2c, h1c]
  omega

/-- C1 witness: the amended idempotence at a concrete envelope with message
id 1 and gateway id bang-0000000a, from the empty store. -/
theorem c1_idempotent_witness :
    countById (process_envelope "msh/t" envGw
        (process_envelope "msh/t" envGw DB.empty).1).1.packets 1 = 1
    ∧ (process_envelope "msh/t" envGw DB.empty).2 = false
    ∧ (process_envelope "msh/t" envGw (process_envelope "msh/t" envGw DB.empty).1).2
        = false :=
  c1_idempotent "msh/t" envGw DB.empty (by decide) (by decide) 10 (by decide) (by decide)

/-- C2: evaluating the processor at an envelope with message id 1 and an
empty gateway identifier, from the empty store. The claim (and the spec) say
the generic Packet insert of step 2 is still durably committed, but the
early return on the missing gateway id skips the commit of that unit of
work, so the store is left unchanged: the staged Packet insert is rolled
back when the session closes. -/
theorem c2_packet_insert_rolled_back :
    process_envelope "msh/t" envNoGw DB.empty = (DB.empty, false) := by
  decide

/-- C3 counterexample: an inbound route-discovery probe (want_response true)
whose request id resolves to nothing still produces a Traceroute row, keyed
to the carrying packet with done false — the processor stores traceroutes
unconditionally (policy (a)), not under policy (b) as the claim states. -/
theorem c3_counterexample :
    (process_envelope "msh/t" envTrProbe DB.empty).1.traceroutes
      = [{ packet_id := 5, route := [8, 9], done := false, gateway_node_id := 10 }] := by
  decide

/-- C3 (amended): for every route-discovery envelope that reaches the
port-specific step (non-zero id, parseable gateway id), exactly one
Traceroute row is appended, keyed to the carrying packet, with the done flag
the negation of want_response — storage is unconditional on whether the
request chain resolves. -/
theorem c3_traceroute_always_stored (t : String) (env : Env) (db : DB)
    (hid : env.packet.id ≠ 0) (hgw : env.gateway_id ≠ "")
    (gw : Nat) (hp : parseGatewayId env.gateway_id = some gw)
    (hport : env.packet.decodedF.portnum = PortNum.TRACEROUTE_APP) :
    (process_envelope t env db).1.traceroutes
      = db.traceroutes ++
        [{ packet_id := env.packet.id, route := env.packet.decodedF.payload,
           done := !env.packet.decodedF.want_response, gateway_node_id := gw }] := by
  have h0 : (env.packet.id == 0) = false := by simp [hid]
  have h1 : (env.gateway_id == "") = false := by simp [hgw]
  have hpt : (env.packet.decodedF.portnum == PortNum.TRACEROUTE_APP) = true := by
    simp [hport]
  unfold process_envelope
  simp only [h0, h1, hp, hpt, Bool.false_eq_true, if_false, if_true]
  rw [mapReportBranch_traceroutes]
  simp

/-- C3 witness: the amended storage rule at a concrete traceroute reply. -/
theorem c3_traceroute_always_stored_witness :
    (process_envelope "msh/t" envTrReply DB.empty).1.traceroutes
      = [{ packet_id := 6, route := [8, 9], done := true, gateway_node_id := 10 }] :=
  c3_traceroute_always_stored "msh/t" envTrReply DB.empty (by decide) (by decide) 10
    (by decide) (by decide)

/-- C4 counterexample: for the edge set containing exactly O to A, A to B and
B to C (as nodes 1, 2, 3, 4), the root-scoped query with root O and depth 2
visits only O: the BFS walks edges from destination to source, so node A is
not in the visited set, contrary to the claim. -/
theorem c4_counterexample :
    2 ∉ (rootScope (buildEdges [⟨2, 1⟩, ⟨3, 2⟩, ⟨4, 3⟩] [] []).1 1 2).1
    ∧ (rootScope (buildEdges [⟨2, 1⟩, ⟨3, 2⟩, ⟨4, 3⟩] [] []).1 1 2).1 = [1] := by
  decide

/-- C4 (amended): the BFS follows edges in reverse; for the edge set
containing exactly A to O, B to A and C to B (nodes 1, 2, 3, 4 as O, A, B,
C), the root-scoped query with root O and depth 2 yields a visited set
containing O, A and B and excluding C. -/
theorem c4_bfs_depth_reverse :
    1 ∈ (rootScope (buildEdges [⟨1, 2⟩, ⟨2, 3⟩, ⟨3, 4⟩] [] []).1 1 2).1
    ∧ 2 ∈ (rootScope (buildEdges [⟨1, 2⟩, ⟨2, 3⟩, ⟨3, 4⟩] [] []).1 1 2).1
    ∧ 3 ∈ (rootScope (buildEdges [⟨1, 2⟩, ⟨2, 3⟩, ⟨3, 4⟩] [] []).1 1 2).1
    ∧ 4 ∉ (rootScope (buildEdges [⟨1, 2⟩, ⟨2, 3⟩, ⟨3, 4⟩] [] []).1 1 2).1 := by
  decide

/-- C5 counterexample: an aggregated self-loop edge (node 5 to itself, of
weight 1) is not emitted by the edge-rendering step: the bidirectional-merge
check marks the reverse pair — the edge itself — as already added before the
emission test. -/
theorem c5_counterexample :
    lookupW (buildEdges [⟨5, 5⟩] [] []).1 (5, 5) = 1
    ∧ renderEdges (buildEdges [⟨5, 5⟩] [] []).1 (buildEdges [⟨5, 5⟩] [] []).2 = [] := by
  decide

/-- C5 (amended): the edge-rendering step never emits a self-loop: every
rendered edge has distinct source and destination, because for an edge whose
source equals its destination the bidirectional-merge step adds the edge
itself to edge_added before the emission check. -/
theorem c5_selfloop_dropped (ew : List (EdgeKey × Nat)) (et : List (EdgeKey × String))
    (s d : Nat) (dir : String) (h : (s, d, dir) ∈ renderEdges ew et) : s ≠ d :=
  renderGo_ne ew et ew [] (fun x hx => keysContain_of_mem ew x hx) s d dir h

/-- C5 witness: the no-self-loop rule applied to a rendered ordinary edge. -/
theorem c5_selfloop_dropped_witness : (1 : Nat) ≠ 2 :=
  c5_selfloop_dropped [((1, 2), 1)] [((1, 2), "sni")] 1 2 "forward" (by decide)

/-- C6: for every plaintext byte string, message id and origin address,
encrypting with AES-128-CTR under the fixed pre-shared key and the 16-byte
nonce of 8-byte little-endian id followed by 8-byte little-endian origin,
then running the decrypt computation on a packet carrying that ciphertext,
id and origin, recovers exactly the original plaintext bytes. -/
theorem c6_decrypt_roundtrip (plaintext : Bytes) (packetId origin : Nat)
    (hbytes : ∀ b ∈ plaintext, b < 256) :
    decryptRaw packetId origin (ctrCrypt KEY (nonceOf packetId origin) plaintext)
      = plaintext := by
  unfold decryptRaw
  exact ctrCrypt_involutive KEY (nonceOf packetId origin) plaintext

/-- C6 witness: the round trip at a concrete three-byte plaintext. -/
theorem c6_decrypt_roundtrip_witness :
    (∀ b ∈ ([0, 1, 255] : Bytes), b < 256)
    ∧ decryptRaw 3 4 (ctrCrypt KEY (nonceOf 3 4) [0, 1, 255]) = [0, 1, 255] :=
  ⟨by decide, c6_decrypt_roundtrip [0, 1, 255] 3 4 (by decide)⟩

/-- C7: decode_payload returns none for every port number outside the
DECODE_MAP enumeration, and returns none whenever the type-specific decoder
fails, with the failure caught rather than propagated (the total return type
carries no escaping exception). -/
theorem c7_decode_payload_total :
    (∀ port, DECODE_MAP.find? (fun e => e.1 == port) = none →
      ∀ b, decode_payload port b = none)
    ∧ (∀ port f, DECODE_MAP.find? (fun e => e.1 == port) = some f →
      ∀ b err, f.2 b = .error err → decode_payload port b = none) := by
  constructor
  · intro port h b
    simp [decode_payload, h]
  · intro port f h b err he
    simp [decode_payload, h, he]

/-- C7 witness: an unknown port number (99) and a text payload that is not
valid UTF-8 both yield none. -/
theorem c7_decode_payload_total_witness :
    decode_payload 99 [1, 2, 3] = none
    ∧ decode_payload PortNum.TEXT_MESSAGE_APP [255] = none :=
  ⟨c7_decode_payload_total.1 99 rfl [1, 2, 3],
   c7_decode_payload_total.2 PortNum.TEXT_MESSAGE_APP
     (PortNum.TEXT_MESSAGE_APP, textMessage) rfl [255] .unicodeDecodeError rfl⟩

set_option maxRecDepth 10000 in
/-- C8: evaluating the consumer at a frame whose packet has no decoded
section and whose encrypted byte string decrypts to an unparseable inner
frame. The claim (and the spec) say such envelopes are dropped, but the
guard tests Python truthiness of a protobuf submessage, which is always
true, so the envelope is yielded with its decoded section still absent. -/
theorem c8_undecoded_envelope_yielded :
    (getTopicEnvelopes [("msh/x", some envC8)]).map (fun p => (p.1, p.2.packet.decoded))
      = [("msh/x", (none : Option DataMsg))] := by
  decide

/-- C9: in the unscoped topology graph, the weight of every ordered node
pair is the sum of the occurrences contributed by the uplink/seen, the
neighbor-table and the traceroute loops, while the single retained type tag
is that of the kind processed last: traceroute overrides neighbor-table,
which overrides uplink/seen. -/
theorem c9_edge_tag_last_writer_wins (sni : List SniInput) (ni : List NeighborInput)
    (trs : List TrInput) (q : EdgeKey) :
    lookupW (buildEdges sni ni trs).1 q
      = (sniPairs sni).count q + (niPairs ni).count q + (trPairs trs).count q
    ∧ lookupT (buildEdges sni ni trs).2 q
      = (if q ∈ trPairs trs then some "tr"
         else if q ∈ niPairs ni then some "ni"
         else if q ∈ sniPairs sni then some "sni"
         else none) := by
  unfold buildEdges
  constructor
  · rw [addPairs_lookupW, addPairs_lookupW, addPairs_lookupW]
    simp [lookupW]
  · rw [addPairs_lookupT, addPairs_lookupT, addPairs_lookupT]
    simp [lookupT]

/-- C10 counterexample: a map-report envelope with message id 0 whose
payload fails to decode performs no Node upsert (the branch body fails and
is caught, the unit of work commits nothing), so the upsert is not performed
for every such envelope as the claim states. -/
theorem c10_counterexample :
    (process_envelope "msh/t" envMr0 DB.empty).1.nodes = []
    ∧ process_envelope "msh/t" envMr0 DB.empty = (DB.empty, false) := by
  decide

/-- C10 (amended): for every map-report envelope whose packet message id is
zero and whose payload decodes as a map report, the Node upsert of the
map-report branch is performed and committed in its own unit of work — a
node row for the reporter, carrying the reported firmware, is present
afterwards — while no Packet, PacketSeen or Traceroute row is created and no
error is raised. -/
theorem c10_map_report_zero_id (t : String) (env : Env) (db : DB) (mr : MapReportMsg)
    (hport : env.packet.decodedF.portnum = PortNum.MAP_REPORT_APP)
    (hid : env.packet.id = 0)
    (hdec : decode_payload PortNum.MAP_REPORT_APP env.packet.decodedF.payload
      = some (.mapReport mr)) :
    (process_envelope t env db).2 = false
    ∧ (process_envelope t env db).1.packets = db.packets
    ∧ (process_envelope t env db).1.seens = db.seens
    ∧ (process_envelope t env db).1.traceroutes = db.traceroutes
    ∧ ∃ n ∈ (process_envelope t env db).1.nodes,
        n.node_id = some env.packet.fromNode ∧ n.firmware = some mr.firmware_version := by
  have h0 : (env.packet.id == 0) = true := by simp [hid]
  have hresult : process_envelope t env db = (mapReportBranch env db, false) := by
    unfold process_envelope
    simp only [h0, if_true]
  rw [hresult]
  refine ⟨rfl, mapReportBranch_packets env db, mapReportBranch_seens env db,
    mapReportBranch_traceroutes env db, ?_⟩
  have hpt : (env.packet.decodedF.portnum == PortNum.MAP_REPORT_APP) = true := by
    simp [hport]
  unfold mapReportBranch
  simp only [hpt, if_true, hdec]
  cases hfq : db.nodes.find? (fun n => n.node_id == some env.packet.fromNode) with
  | some n0 =>
    simp only [hfq]
    exact ⟨_, replaceFirst_mem _ _ db.nodes n0 hfq, rfl, rfl⟩
  | none =>
    simp only [hfq]
    refine ⟨{ id := userIdOf env.packet.fromNode, node_id := some env.packet.fromNode,
              long_name := mr.long_name, short_name := mr.short_name,
              hw_model := hwModelName mr.hw_model, role := roleName mr.role,
              channel := env.channel_id, firmware := some mr.firmware_version,
              last_lat := some mr.latitude_i,
              last_long := some mr.longitude_i }, ?_, rfl, rfl⟩
    simp

/-- C10 witness: the amended frame effect at a concrete map-report envelope
with id 0 and a decodable (empty) payload, from the empty store. -/
theorem c10_map_report_zero_id_witness :
    (process_envelope "msh/t" envMr1 DB.empty).2 = false
    ∧ (process_envelope "msh/t" envMr1 DB.empty).1.packets = DB.empty.packets
    ∧ (process_envelope "msh/t" envMr1 DB.empty).1.seens = DB.empty.seens
    ∧ (process_envelope "msh/t" envMr1 DB.empty).1.traceroutes = DB.empty.traceroutes
    ∧ ∃ n ∈ (process_envelope "msh/t" envMr1 DB.empty).1.nodes,
        n.node_id = some 7 ∧ n.firmware = some "" :=
  c10_map_report_zero_id "msh/t" envMr1 DB.empty ⟨"", "", 0, 0, "", 0, 0⟩ rfl rfl rfl

end Meshview
